import Mathlib

/-!
Verification development for the BlenderParametricObject add-on
(`parametric_object.py`, `parametric_object_skeleton.py`).

The development shallowly embeds:
  * the Parametric Shape Model — the `verts`, `faces`, `uvs`, `matids`
    properties of `ParametricObjectProperty` (identical in both files);
  * the Mesh Builder/Updater — the `BmeshEdit` static methods of
    `parametric_object_skeleton.py` (`_verts`, `_matids`, `_uvs`,
    `verts`, `aspect`), Python list-index semantics included: an
    out-of-range subscript raises `IndexError`, and in-place mutations
    performed before the raise persist;
  * the update pipeline `ParametricObjectProperty.update` of the
    skeleton file, with its selection / active-object bookkeeping.

Coordinates are modelled as rationals; the source only ever copies the
parameter values into vertex tuples, so no floating-point rounding is
involved in any claim.
-/

set_option autoImplicit false

/-- A 3-D point, as stored in a vertex coordinate. -/
abbrev Vec3 := ℚ × ℚ × ℚ

/-- A 2-D UV coordinate. -/
abbrev UV := ℚ × ℚ

/-- `ParametricObjectProperty.verts`: the 8 box corners, in source order. -/
def verts (x y z : ℚ) : List Vec3 :=
  [ (0, y, 0),
    (0, 0, 0),
    (x, 0, 0),
    (x, y, 0),
    (0, y, z),
    (0, 0, z),
    (x, 0, z),
    (x, y, z) ]

/-- `ParametricObjectProperty.faces`: the 6 quads, in source order. -/
def faces : List (List ℕ) :=
  [ [0, 1, 2, 3],
    [7, 6, 5, 4],
    [7, 4, 0, 3],
    [4, 5, 1, 0],
    [5, 6, 2, 1],
    [6, 7, 3, 2] ]

/-- `ParametricObjectProperty.uvs`: one UV loop per face corner. -/
def uvs : List (List UV) :=
  [ [(0, 0), (0, 1), (1, 1), (1, 0)],
    [(0, 0), (0, 1), (1, 1), (1, 0)],
    [(0, 0), (0, 1), (1, 1), (1, 0)],
    [(0, 0), (0, 1), (1, 1), (1, 0)],
    [(0, 0), (0, 1), (1, 1), (1, 0)],
    [(0, 0), (0, 1), (1, 1), (1, 0)] ]

/-- `ParametricObjectProperty.matids`: one material index per face. -/
def matids : List ℕ := [0, 0, 0, 0, 0, 0]

/-- The derived geometry arrays for one parameter set (the spec's
Geometry Snapshot): the four `ParametricObjectProperty` properties
bundled together. -/
structure GeometrySnapshot where
  vertices : List Vec3
  faces : List (List ℕ)
  material_ids : List ℕ
  uv_loops : List (List UV)
  deriving DecidableEq

/-- `compute_geometry`: evaluating the four shape-model properties at a
parameter set. -/
def compute_geometry (x y z : ℚ) : GeometrySnapshot :=
  { vertices := verts x y z
    faces := faces
    material_ids := matids
    uv_loops := uvs }

/-- The declared bounds of the stored `FloatProperty` parameters:
`x` has `min=0.25, max=10000`, `y` and `z` have `min=0.1, max=10000`. -/
def inBounds (x y z : ℚ) : Prop :=
  1/4 ≤ x ∧ x ≤ 10000 ∧ 1/10 ≤ y ∧ y ≤ 10000 ∧ 1/10 ≤ z ∧ z ≤ 10000

instance (x y z : ℚ) : Decidable (inBounds x y z) := by
  unfold inBounds; infer_instance

/-- Claim C1: for every in-bounds parameter set `(x, y, z)` the vertex
list spans exactly the axis-aligned box from `(0,0,0)` to `(x,y,z)`:
every vertex lies inside that box componentwise, and both extreme
corners `(0,0,0)` and `(x,y,z)` occur among the 8 vertices, so the
componentwise minimum is `(0,0,0)` and the componentwise maximum is
`(x,y,z)`. -/
theorem C1_box_extents (x y z : ℚ) (h : inBounds x y z) :
    (∀ v ∈ verts x y z,
      0 ≤ v.1 ∧ v.1 ≤ x ∧ 0 ≤ v.2.1 ∧ v.2.1 ≤ y ∧ 0 ≤ v.2.2 ∧ v.2.2 ≤ z) ∧
    ((0 : ℚ), (0 : ℚ), (0 : ℚ)) ∈ verts x y z ∧ (x, y, z) ∈ verts x y z := by
  obtain ⟨hx1, hx2, hy1, hy2, hz1, hz2⟩ := h
  refine ⟨?_, ?_, ?_⟩
  · intro v hv
    simp only [verts, List.mem_cons, List.not_mem_nil, or_false] at hv
    rcases hv with rfl | rfl | rfl | rfl | rfl | rfl | rfl | rfl <;>
      dsimp only <;>
      exact ⟨by linarith, by linarith, by linarith, by linarith,
             by linarith, by linarith⟩
  · simp [verts]
  · simp [verts]

/-- Witness for C1 at the default parameter set `(100, 0.80, 2)`. -/
theorem C1_box_extents_witness :
    inBounds 100 (4/5) 2 ∧
    ((∀ v ∈ verts 100 (4/5) 2,
        0 ≤ v.1 ∧ v.1 ≤ 100 ∧ 0 ≤ v.2.1 ∧ v.2.1 ≤ 4/5 ∧
        0 ≤ v.2.2 ∧ v.2.2 ≤ 2) ∧
      ((0 : ℚ), (0 : ℚ), (0 : ℚ)) ∈ verts 100 (4/5) 2 ∧
      ((100 : ℚ), (4/5 : ℚ), (2 : ℚ)) ∈ verts 100 (4/5) 2) :=
  ⟨by norm_num [inBounds], C1_box_extents 100 (4/5) 2 (by norm_num [inBounds])⟩

/-- Claim C2: for every parameter set, `compute_geometry` returns
exactly 8 vertices, 6 faces, 6 material ids, and 6 UV-loop groups of 4
entries each, and every vertex index occurring in any face is strictly
less than 8. -/
theorem C2_geometry_counts (x y z : ℚ) :
    (compute_geometry x y z).vertices.length = 8 ∧
    (compute_geometry x y z).faces.length = 6 ∧
    (compute_geometry x y z).material_ids.length = 6 ∧
    (compute_geometry x y z).uv_loops.length = 6 ∧
    (∀ r ∈ (compute_geometry x y z).uv_loops, r.length = 4) ∧
    (∀ f ∈ (compute_geometry x y z).faces, ∀ i ∈ f, i < 8) := by
  refine ⟨rfl, rfl, rfl, rfl, ?_, ?_⟩
  · show ∀ r ∈ uvs, r.length = 4
    decide
  · show ∀ f ∈ faces, ∀ i ∈ f, i < 8
    decide

/-- Claim C7: at the parameter set `(x=100, y=0.80, z=2)`, vertex 0 is
`(0, 0.80, 0)`, vertex 6 is `(100, 0, 2)`, vertex 7 is `(100, 0.80, 2)`,
face 0 is `(0,1,2,3)`, and the material ids are `[0,0,0,0,0,0]`. -/
theorem C7_default_scenario :
    (compute_geometry 100 (4/5) 2).vertices.get? 0 = some (0, 4/5, 0) ∧
    (compute_geometry 100 (4/5) 2).vertices.get? 6 = some (100, 0, 2) ∧
    (compute_geometry 100 (4/5) 2).vertices.get? 7 = some (100, 4/5, 2) ∧
    (compute_geometry 100 (4/5) 2).faces.get? 0 = some [0, 1, 2, 3] ∧
    (compute_geometry 100 (4/5) 2).material_ids = [0, 0, 0, 0, 0, 0] := by
  exact ⟨rfl, rfl, rfl, rfl, rfl⟩

/-- Claim C10: the per-face UV loops are the identical constant
unit-square loop `[(0,0), (0,1), (1,1), (1,0)]` for all 6 faces, for
every parameter set — the UVs are never scaled to the box dimensions. -/
theorem C10_uvs_constant (x y z : ℚ) :
    (compute_geometry x y z).uv_loops =
      List.replicate 6 [((0 : ℚ), (0 : ℚ)), (0, 1), (1, 1), (1, 0)] := by
  rfl

/-!
## The Mesh Builder/Updater (`BmeshEdit` of `parametric_object_skeleton.py`)

The bmesh state reachable through the `BmeshEdit` helpers: each face
carries its vertex indices, its `material_index`, and one UV per corner
loop.  A Python subscript `seq[i]` with `i` out of range raises
`IndexError`; a mutation loop that raises keeps the in-place mutations
already performed — both are modelled explicitly, so every operation
returns the (possibly partially mutated) state together with the raised
exception, if any.
-/

/-- An exception escaping a `BmeshEdit` helper: Python's built-in
`IndexError` from an out-of-range subscript, or the `RuntimeError`
raised by the guards in `BmeshEdit._uvs`. -/
inductive PyError where
  | indexError
  | runtimeError
  deriving DecidableEq

/-- One bmesh face: its vertex indices (`face.verts`), its
`material_index`, and the UV of each corner loop (`loop[layer].uv`),
one per corner. -/
structure Face where
  verts : List ℕ
  matIndex : ℕ
  loopUVs : List UV
  deriving DecidableEq

/-- The contents of a mesh data-block as observed through bmesh:
vertex coordinates (`bm.verts[i].co`) and faces. -/
structure Mesh where
  verts : List Vec3
  faces : List Face
  deriving DecidableEq

/-- `BmeshEdit._verts`: `for i, v in enumerate(verts): bm.verts[i].co = v`.
The loop writes positions `0, 1, 2, …` in order, so it replaces the
first `len(verts)` coordinates; when the mesh runs out of vertices
first, `bm.verts[i]` raises `IndexError`, keeping the writes already
done. -/
def pyVertsCo : List Vec3 → List Vec3 → List Vec3 × Option PyError
  | cur, [] => (cur, none)
  | [], _ :: _ => ([], some .indexError)
  | _ :: cs, v :: rest =>
    let r := pyVertsCo cs rest
    (v :: r.1, r.2)

/-- `BmeshEdit._matids`:
`for i, matid in enumerate(matids): bm.faces[i].material_index = matid`.
Writes faces `0, 1, 2, …` in order; `bm.faces[i]` raises `IndexError`
when the face list is exhausted before `matids` is. -/
def pyMatidsCo : List Face → List ℕ → List Face × Option PyError
  | fs, [] => (fs, none)
  | [], _ :: _ => ([], some .indexError)
  | f :: fs, matid :: rest =>
    let r := pyMatidsCo fs rest
    ({ f with matIndex := matid } :: r.1, r.2)

/-- Inner loop of `BmeshEdit._uvs`:
`for j, loop in enumerate(face.loops): if j > l_j: raise RuntimeError …;
loop[layer].uv = uvs[i][j]` where `row = uvs[i]` and `l_j = len(row)`.
Note the guard compares with `>`, so the `RuntimeError` can never fire:
at `j = len(row)` the subscript `row[j]` raises `IndexError` first. -/
def pyLoopUVs (row : List UV) : ℕ → List UV → List UV × Option PyError
  | _, [] => ([], none)
  | j, l :: ls =>
    if j > row.length then (l :: ls, some .runtimeError)
    else
      match row.get? j with
      | none => (l :: ls, some .indexError)
      | some uv =>
        let r := pyLoopUVs row (j + 1) ls
        (uv :: r.1, r.2)

/-- Outer loop of `BmeshEdit._uvs`:
`for i, face in enumerate(bm.faces): if i > l_i: raise RuntimeError …;
l_j = len(uvs[i]); …` with `l_i = len(uvs)`.  Again the `>` guard is
unreachable: `uvs[i]` raises `IndexError` at `i = len(uvs)` first. -/
def pyUVsAux (rows : List (List UV)) : ℕ → List Face → List Face × Option PyError
  | _, [] => ([], none)
  | i, f :: fs =>
    if i > rows.length then (f :: fs, some .runtimeError)
    else
      match rows.get? i with
      | none => (f :: fs, some .indexError)
      | some row =>
        let inner := pyLoopUVs row 0 f.loopUVs
        let f2 : Face := { f with loopUVs := inner.1 }
        match inner.2 with
        | some e => (f2 :: fs, some e)
        | none =>
          let r := pyUVsAux rows (i + 1) fs
          (f2 :: r.1, r.2)

/-- `BmeshEdit.verts` (the spec's `update_vertices`): run
`BmeshEdit._verts` on the mesh contents.  The `_start`/`_end` edit-mode
bracket around it is part of the `update` pipeline model below. -/
def BmeshEdit.verts (m : Mesh) (vs : List Vec3) : Mesh × Option PyError :=
  match pyVertsCo m.verts vs with
  | (cur, e) => ({ m with verts := cur }, e)

/-- `BmeshEdit.aspect`: `_matids(bm, matids)` then `_uvs(bm, uvs)`; an
exception in `_matids` skips `_uvs` and propagates, keeping the
mutations already applied. -/
def BmeshEdit.aspect (m : Mesh) (ids : List ℕ) (rows : List (List UV)) :
    Mesh × Option PyError :=
  match pyMatidsCo m.faces ids with
  | (fs, some e) => ({ m with faces := fs }, some e)
  | (fs, none) =>
    match pyUVsAux rows 0 fs with
    | (fs2, e2) => ({ m with faces := fs2 }, e2)

/-- `Mesh.from_pydata(verts, [], faces)` followed by
`bm.loops.layers.uv.verify()`: a fresh mesh holding the given vertices
and faces, every `material_index` initialised to `0` and every corner
UV to `(0, 0)`. -/
def fromPydata (vs : List Vec3) (fcs : List (List ℕ)) : Mesh :=
  { verts := vs
    faces := fcs.map fun f =>
      { verts := f, matIndex := 0, loopUVs := f.map fun _ => ((0 : ℚ), (0 : ℚ)) } }

/-- The topology branch of `ParametricObjectProperty.update` (the
spec's `rebuild`): a fresh mesh is built with `from_pydata`, installed
as `o.data` (the prior data-block is removed — hence the prior contents
`_prior` are discarded unconditionally), then `BmeshEdit.aspect`
assigns material ids and UVs. -/
def rebuild (_prior : Mesh) (vs : List Vec3) (fcs : List (List ℕ))
    (ids : List ℕ) (rows : List (List UV)) : Mesh × Option PyError :=
  BmeshEdit.aspect (fromPydata vs fcs) ids rows

/-!
## The update pipeline (`ParametricObjectProperty.update` of the skeleton)

The externally observed editing context: the current active object, the
current selection, and the mesh data-block of the single target object.
Objects are identified by numbers; `old = context.active_object` may
differ from the target `o` found by `OBJECT_PT_parametric_object.params`
(the property group can live on a child of the active object).
-/

/-- `obj.select = True`: adds `o` to the selection, keeping the rest. -/
def select (sel : ℕ → Bool) (o : ℕ) : ℕ → Bool :=
  fun i => if i = o then true else sel i

/-- The externally observed editing context. -/
structure Ctx where
  active : ℕ
  selected : ℕ → Bool
  mesh : Mesh

/-- Which branch of `ParametricObjectProperty.update` ran: the early
`return` when the `params` lookup does not yield this property group,
the `topology=True` full rebuild, or the `topology=False` vertex
patch. -/
inductive UpdateAction where
  | skipped
  | vertexPatch
  | fullRebuild
  deriving DecidableEq

/-- `ParametricObjectProperty.update(context, topology)` of the
skeleton file.  `propsMatch` is the `props != self` guard outcome
(`false` means the early `return`).  Both branches first select and
activate the target `o` (explicitly in the topology branch, via
`BmeshEdit._start` in the vertex-patch branch).  The closing
`old.select = True; context.scene.objects.active = old` lines run only
when the mutation did not raise — the source has no `try`/`finally`,
so an exception propagates past them with the context unrestored.
The branch taken is also reported, for the update-policy claims. -/
def update (c : Ctx) (o : ℕ) (propsMatch : Bool) (x y z : ℚ) (topology : Bool) :
    Ctx × Option PyError × UpdateAction :=
  match propsMatch with
  | false => (c, none, .skipped)
  | true =>
    let old := c.active
    let c1 : Ctx := { c with selected := select c.selected o, active := o }
    let step : Mesh × Option PyError × UpdateAction :=
      match topology with
      | true =>
        let r := rebuild c1.mesh (verts x y z) faces matids uvs
        (r.1, r.2, .fullRebuild)
      | false =>
        let r := BmeshEdit.verts c1.mesh (verts x y z)
        (r.1, r.2, .vertexPatch)
    let c2 : Ctx := { c1 with mesh := step.1 }
    match step.2.1 with
    | some e => (c2, some e, step.2.2)
    | none =>
      ({ c2 with selected := select c2.selected old, active := old }, none, step.2.2)

/-- `update_size(self, context)`: the update callback of the `x`, `y`
and `z` properties — `self.update(context, topology=False)`. -/
def update_size (c : Ctx) (o : ℕ) (propsMatch : Bool) (x y z : ℚ) :
    Ctx × Option PyError × UpdateAction :=
  update c o propsMatch x y z false

/-!
## Helper lemmas
-/

/-- When the patch array is no longer than the vertex list, the
`_verts` loop replaces the first `vs.length` coordinates and raises
nothing. -/
theorem pyVertsCo_of_le : ∀ (vs cur : List Vec3), vs.length ≤ cur.length →
    pyVertsCo cur vs = (vs ++ cur.drop vs.length, none)
  | [], cur, _ => by simp [pyVertsCo]
  | _ :: _, [], h => absurd h (by simp)
  | v :: rest, c :: cs, h => by
    have ih := pyVertsCo_of_le rest cs (Nat.succ_le_succ_iff.mp (by simpa using h))
    simp [pyVertsCo, ih]

/-- When the patch array is longer than the vertex list, the `_verts`
loop overwrites every coordinate and then raises `IndexError`. -/
theorem pyVertsCo_of_lt : ∀ (vs cur : List Vec3), cur.length < vs.length →
    pyVertsCo cur vs = (vs.take cur.length, some .indexError)
  | [], _, h => absurd h (by simp)
  | _ :: _, [], _ => by simp [pyVertsCo]
  | v :: rest, c :: cs, h => by
    have ih := pyVertsCo_of_lt rest cs (Nat.succ_lt_succ_iff.mp (by simpa using h))
    simp [pyVertsCo, ih]

/-- `BmeshEdit.verts` with a not-longer array: no exception, first
`vs.length` coordinates replaced, faces untouched. -/
theorem BmeshEdit.verts_of_le (m : Mesh) (vs : List Vec3)
    (h : vs.length ≤ m.verts.length) :
    BmeshEdit.verts m vs = ({ m with verts := vs ++ m.verts.drop vs.length }, none) := by
  unfold BmeshEdit.verts
  rw [pyVertsCo_of_le vs m.verts h]

/-- `BmeshEdit.verts` with an array of exactly the current vertex
count: no exception and every coordinate replaced. -/
theorem BmeshEdit.verts_of_eq (m : Mesh) (vs : List Vec3)
    (h : vs.length = m.verts.length) :
    BmeshEdit.verts m vs = ({ m with verts := vs }, none) := by
  rw [BmeshEdit.verts_of_le m vs h.le, h, List.drop_length, List.append_nil]

/-- The vertex patch never changes the face list (topology, material
indices, UVs). -/
theorem BmeshEdit.verts_faces (m : Mesh) (vs : List Vec3) :
    (BmeshEdit.verts m vs).1.faces = m.faces := by
  unfold BmeshEdit.verts
  rcases h : pyVertsCo m.verts vs with ⟨cur, e⟩
  rfl

/-- `BmeshEdit.aspect` never changes the vertex coordinates. -/
theorem BmeshEdit.aspect_verts (m : Mesh) (ids : List ℕ) (rows : List (List UV)) :
    (BmeshEdit.aspect m ids rows).1.verts = m.verts := by
  unfold BmeshEdit.aspect
  rcases hm : pyMatidsCo m.faces ids with ⟨fs, e⟩
  cases e <;> rfl

/-- A rebuild installs exactly the requested vertex coordinates,
whatever the prior contents and whether or not the attribute pass
raised. -/
theorem rebuild_verts (p : Mesh) (vs : List Vec3) (fcs : List (List ℕ))
    (ids : List ℕ) (rows : List (List UV)) :
    (rebuild p vs fcs ids rows).1.verts = vs := by
  unfold rebuild
  rw [BmeshEdit.aspect_verts]
  rfl

/-!
## Claims about the Mesh Builder/Updater
-/

/-- Claim C4 as stated is false: `BmeshEdit.verts` (the spec's
`update_vertices`) performs no length validation.  A 7-entry vertex
array applied to an 8-vertex box mesh completes without raising
anything, rather than failing with `TopologyMismatch`. -/
theorem C4_counterexample :
    ((verts 50 (4/5) 2).take 7).length = 7 ∧
    (fromPydata (verts 100 (4/5) 2) faces).verts.length = 8 ∧
    (BmeshEdit.verts (fromPydata (verts 100 (4/5) 2) faces)
      ((verts 50 (4/5) 2).take 7)).2 = none :=
  ⟨rfl, rfl, rfl⟩

/-- Claim C4, amended: `update_vertices` never fails when the array is
no longer than the current vertex count — in particular never with a
`TopologyMismatch` (no such check exists): it succeeds, setting the
i-th vertex position to `vertices[i]` for every `i < len(vertices)`
and leaving the remaining vertices unchanged.  (When the array is
longer, a plain `IndexError` escapes after all current positions have
been overwritten.)  The equal-length case of the original claim is the
special case `vs.length = m.verts.length`, where the dropped suffix is
empty. -/
theorem C4_amended (m : Mesh) (vs : List Vec3) (h : vs.length ≤ m.verts.length) :
    BmeshEdit.verts m vs = ({ m with verts := vs ++ m.verts.drop vs.length }, none) :=
  BmeshEdit.verts_of_le m vs h

/-- Witness for the amended C4 at the box mesh and a full-length
patch. -/
theorem C4_amended_witness :
    (verts 50 (4/5) 2).length ≤ (fromPydata (verts 100 (4/5) 2) faces).verts.length ∧
    BmeshEdit.verts (fromPydata (verts 100 (4/5) 2) faces) (verts 50 (4/5) 2) =
      ({ fromPydata (verts 100 (4/5) 2) faces with
          verts := verts 50 (4/5) 2 ++
            (fromPydata (verts 100 (4/5) 2) faces).verts.drop
              (verts 50 (4/5) 2).length }, none) :=
  ⟨by decide, C4_amended (fromPydata (verts 100 (4/5) 2) faces) (verts 50 (4/5) 2) (by decide)⟩

/-- Claim C9: the vertex patch is idempotent — for every mesh and
every vertex array of matching length, patching twice with the same
array yields the same resource state as patching once. -/
theorem C9_patch_idempotent (m : Mesh) (vs : List Vec3)
    (h : vs.length = m.verts.length) :
    BmeshEdit.verts (BmeshEdit.verts m vs).1 vs = BmeshEdit.verts m vs := by
  rw [BmeshEdit.verts_of_eq m vs h]
  exact BmeshEdit.verts_of_eq { m with verts := vs } vs rfl

/-- Witness for C9 at the box mesh and a full-length patch. -/
theorem C9_patch_idempotent_witness :
    (verts 50 (4/5) 2).length = (fromPydata (verts 100 (4/5) 2) faces).verts.length ∧
    BmeshEdit.verts
        (BmeshEdit.verts (fromPydata (verts 100 (4/5) 2) faces) (verts 50 (4/5) 2)).1
        (verts 50 (4/5) 2) =
      BmeshEdit.verts (fromPydata (verts 100 (4/5) 2) faces) (verts 50 (4/5) 2) :=
  ⟨rfl, C9_patch_idempotent (fromPydata (verts 100 (4/5) 2) faces) (verts 50 (4/5) 2) rfl⟩

/-- Claim C6: a rebuild followed by a vertex patch with the same
geometry's vertex positions is observationally equal to the rebuild
alone — the patch returns the rebuilt state unchanged and raises
nothing; and in general the patch never touches the face list
(topology, material ids, UVs). -/
theorem C6_rebuild_then_patch (p : Mesh) (vs : List Vec3) (fcs : List (List ℕ))
    (ids : List ℕ) (rows : List (List UV)) :
    BmeshEdit.verts (rebuild p vs fcs ids rows).1 vs =
      ((rebuild p vs fcs ids rows).1, none) ∧
    ∀ (m : Mesh) (ws : List Vec3), (BmeshEdit.verts m ws).1.faces = m.faces := by
  refine ⟨?_, BmeshEdit.verts_faces⟩
  set R := (rebuild p vs fcs ids rows).1 with hR
  have hv : R.verts = vs := rebuild_verts p vs fcs ids rows
  rw [BmeshEdit.verts_of_eq R vs (by rw [hv]), ← hv]

/-- A distinct prior mesh state (one lone vertex, no faces) used to
observe whether a rebuild preserves the prior resource contents. -/
def priorMesh : Mesh := fromPydata [((0 : ℚ), (0 : ℚ), (0 : ℚ))] []

/-- Claim C3 as stated is false: a rebuild whose `material_ids` has 5
entries for 6 faces does not fail at all — no exception is raised (the
code has no length validation, and the `RuntimeError` guards in
`BmeshEdit._uvs` compare with `>` instead of `>=`, so they can never
fire) — and the resource is not left in its prior state: its contents
are replaced by the freshly built box. -/
theorem C3_counterexample :
    (rebuild priorMesh (verts 100 (4/5) 2) faces [0, 0, 0, 0, 0] uvs).2 = none ∧
    (rebuild priorMesh (verts 100 (4/5) 2) faces [0, 0, 0, 0, 0] uvs).1 ≠ priorMesh := by
  refine ⟨rfl, fun h => ?_⟩
  exact absurd (congrArg (fun m => m.verts.length) h) (by decide)

/-- Claim C3, amended: the rebuild path applies no all-or-nothing
validation.  With `material_ids` one entry short (5 ids for the 6 box
faces) it completes without error; the missing sixth id is simply left
at the freshly initialised `material_index = 0`, so the outcome even
coincides with a rebuild using the full id list; and the prior resource
contents are unconditionally replaced by the new geometry rather than
preserved.  (Attribute arrays that are too long, or `uvs` rows that are
missing or short, instead let a plain `IndexError` escape after part of
the new mesh's attributes have already been written.) -/
theorem C3_amended (p : Mesh) (x y z : ℚ) :
    rebuild p (verts x y z) faces [0, 0, 0, 0, 0] uvs =
      rebuild p (verts x y z) faces matids uvs ∧
    (rebuild p (verts x y z) faces [0, 0, 0, 0, 0] uvs).2 = none ∧
    (rebuild p (verts x y z) faces [0, 0, 0, 0, 0] uvs).1.verts = verts x y z :=
  ⟨rfl, rfl, rfl⟩

/-- A mesh whose vertex count (7) is smaller than the 8 fresh box
vertices, so that the vertex-patch path raises `IndexError`. -/
def shortMesh : Mesh :=
  { verts := List.replicate 7 ((0 : ℚ), (0 : ℚ), (0 : ℚ)), faces := [] }

/-- Claim C5 as stated is false: the source restores the selection and
active object only on the successful path (there is no `try`/`finally`).
On a mesh whose vertex count does not match, the vertex-patch mutation
raises `IndexError`, the restore lines are skipped, and the call exits
with the target object (1) active instead of the pre-call active
object (0). -/
theorem C5_counterexample :
    (update ⟨0, fun _ => false, shortMesh⟩ 1 true 100 (4/5) 2 false).2.1 =
      some PyError.indexError ∧
    (update ⟨0, fun _ => false, shortMesh⟩ 1 true 100 (4/5) 2 false).1.active = 1 ∧
    (⟨0, fun _ => false, shortMesh⟩ : Ctx).active = 0 :=
  ⟨rfl, rfl, rfl⟩

/-- Claim C5, amended: the pre-call active object is restored exactly
on the exits where no exception escapes the mesh mutation (successful
completion, or the early `props != self` return); on an exception the
restore lines are skipped.  Even on success only the active object is
truly restored — the target object additionally stays selected. -/
theorem C5_amended (c : Ctx) (o : ℕ) (pm : Bool) (x y z : ℚ) (topo : Bool)
    (h : (update c o pm x y z topo).2.1 = none) :
    (update c o pm x y z topo).1.active = c.active := by
  unfold update at h ⊢
  cases pm
  · rfl
  · cases topo <;> dsimp only at h ⊢
    · rcases he : (BmeshEdit.verts c.mesh (verts x y z)).2 with _ | e
      · rfl
      · rw [he] at h
        exact Option.noConfusion h
    · rcases he : (rebuild c.mesh (verts x y z) faces matids uvs).2 with _ | e
      · rfl
      · rw [he] at h
        exact Option.noConfusion h

/-- Witness for the amended C5: a successful vertex-patch update on an
8-vertex box restores the active object. -/
theorem C5_amended_witness :
    (update ⟨0, fun _ => false, fromPydata (verts 100 (4/5) 2) faces⟩
        1 true 50 (4/5) 2 false).2.1 = none ∧
    (update ⟨0, fun _ => false, fromPydata (verts 100 (4/5) 2) faces⟩
        1 true 50 (4/5) 2 false).1.active =
      (⟨0, fun _ => false, fromPydata (verts 100 (4/5) 2) faces⟩ : Ctx).active :=
  ⟨rfl, C5_amended ⟨0, fun _ => false, fromPydata (verts 100 (4/5) 2) faces⟩
      1 true 50 (4/5) 2 false rfl⟩

/-- Claim C8: a mutation of a size parameter such as `x` goes through
`update_size`, i.e. `update(context, topology=False)`: whenever the
property-group lookup matches (the resource exists), the branch taken
is the fast-path vertex patch, and no call through `update_size` can
ever take the full-rebuild branch. -/
theorem C8_x_change_fast_path :
    (∀ (c : Ctx) (o : ℕ) (x y z : ℚ),
      (update_size c o true x y z).2.2 = UpdateAction.vertexPatch) ∧
    (∀ (c : Ctx) (o : ℕ) (pm : Bool) (x y z : ℚ),
      (update_size c o pm x y z).2.2 ≠ UpdateAction.fullRebuild) := by
  constructor
  · intro c o x y z
    unfold update_size update
    dsimp only
    rcases he : (BmeshEdit.verts c.mesh (verts x y z)).2 with _ | e <;> rfl
  · intro c o pm x y z
    unfold update_size update
    cases pm
    · exact fun hcon => UpdateAction.noConfusion hcon
    · dsimp only
      rcases he : (BmeshEdit.verts c.mesh (verts x y z)).2 with _ | e <;>
        exact fun hcon => UpdateAction.noConfusion hcon
